import Mathlib

/-!
Shallow embedding of `main.py` from the selenium book-search / Slack-alert
repository, together with theorems settling the frozen claims about it.

Conventions of the embedding:
* Machine effects (the browser, the HTTP request, `time.sleep`) are replaced
  by explicit oracles (`Env`, `HttpOutcome`) describing what each external
  step does, and by counters recording how many sleeps were performed.
* Python exceptions are the `Exc` type; a code path that may raise is a
  `Except Exc _` value; `try/except` is a match on that value.
* A printed line or a Slack message is a `Msg`: the list of tokens of the
  f-string that built it, with interpolated values kept as tagged tokens,
  so that "this log line contains the book title" is the presence of a
  `Tok.book` token.
-/

namespace BookSearch

/-- Kinds of Python exceptions distinguished by the handlers in `main.py`:
`TimeoutException`, `StaleElementReferenceException`, and every other
`Exception`. -/
inductive Exc
  | timeoutExc
  | staleExc
  | otherExc
deriving DecidableEq

/-- The five outcome statuses produced by `check_single_book`. -/
inductive Status
  | available
  | not_found
  | timeout
  | stale
  | error
deriving DecidableEq

/-- One result dict `{"index": ..., "book": ..., "status": ...}`. -/
structure Outcome where
  index : Nat
  book : String
  status : Status
deriving DecidableEq

/-- A token of a formatted message: a literal piece of the f-string, or an
interpolated value tagged by which variable was interpolated. -/
inductive Tok
  | lit : String → Tok
  | book : String → Tok
  | idx : Nat → Tok
  | stat : Status → Tok
  | err : Tok
  | count : Nat → Tok
  | workers : Nat → Tok
  | code : Nat → Tok
deriving DecidableEq

/-- A formatted message (printed line or Slack text). -/
abbrev Msg := List Tok

/-- Whether a message interpolates the book identity string. -/
def hasBookTok (m : Msg) : Bool :=
  m.any fun t =>
    match t with
    | .book _ => true
    | _ => false

/-! ### Retry wrapper (`safe_send_keys`, `safe_clear_element`) -/

/-- What one invocation of the wrapped operation does: succeed, raise
`StaleElementReferenceException`, or raise some other exception. -/
inductive AttemptResult
  | success
  | staleFail
  | otherFail
deriving DecidableEq

/-- How a retry loop run ends: the operation succeeded and the wrapper
returned; the stale exception was re-raised on the final attempt; another
exception propagated; or the `for` loop ran zero iterations and the wrapper
returned normally without calling the operation. -/
inductive RetryOutcome
  | ok
  | raiseStale
  | raiseOther
  | normalExit
deriving DecidableEq

/-- Observable summary of one retry loop run: how many times the wrapped
operation was invoked, how many 0.5-unit backoff sleeps happened, and how
the loop ended. -/
structure RetryResult where
  calls : Nat
  backoffs : Nat
  outcome : RetryOutcome
deriving DecidableEq

/-- The loop `for i in range(retries): try: op(i); return; except Stale:
if i == retries - 1: raise; time.sleep(0.5)` shared by `safe_send_keys` and
`safe_clear_element`, indexed by the number `k` of remaining iterations
(so `i = retries - 1` is `k = 1`) and the current attempt index `i`. -/
def retryAux (op : Nat → AttemptResult) : Nat → Nat → RetryResult
  | 0, _ => ⟨0, 0, .normalExit⟩
  | k + 1, i =>
    match op i with
    | .success => ⟨1, 0, .ok⟩
    | .staleFail =>
      if k = 0 then ⟨1, 0, .raiseStale⟩
      else
        let r := retryAux op k (i + 1)
        ⟨r.calls + 1, r.backoffs + 1, r.outcome⟩
    | .otherFail => ⟨1, 0, .raiseOther⟩

/-- `safe_send_keys(element, keys, retries)`: the retry loop around
`element.send_keys(keys)`; `op i` is what the i-th `send_keys` call does. -/
def safe_send_keys (op : Nat → AttemptResult) (retries : Nat) : RetryResult :=
  retryAux op retries 0

/-- `safe_clear_element(driver, element, retries)`: the retry loop around
the JS clearing script; `op i` is what the i-th `execute_script` call does. -/
def safe_clear_element (op : Nat → AttemptResult) (retries : Nat) : RetryResult :=
  retryAux op retries 0

/-- Both call sites inside `check_single_book` use the default
`retries = 3`. -/
def retryDefault : Nat := 3

/-- The exception (if any) that a default-`retries` retry-wrapper call
lets escape to its caller. -/
def retryExc (op : Nat → AttemptResult) : Option Exc :=
  match (retryAux op retryDefault 0).outcome with
  | .ok => none
  | .normalExit => none
  | .raiseStale => some Exc.staleExc
  | .raiseOther => some Exc.otherExc

/-! ### Message templates of `check_single_book` -/

/-- `print(f"Book #{index} - Starting search for {book}...")` (line 109);
note this local line interpolates the book identity. -/
def startMsg (book : String) (index : Nat) : Msg :=
  [.lit "Book #", .idx index, .lit " - Starting search for ", .book book, .lit "..."]

/-- Slack text `f"#{index} {book} - Book is available!"`. -/
def availSlack (book : String) (index : Nat) : Msg :=
  [.lit "#", .idx index, .lit " ", .book book, .lit " - Book is available!"]

/-- Anonymized local line `f"Book #{index} - Book is available!"`. -/
def availAnon (index : Nat) : Msg :=
  [.lit "Book #", .idx index, .lit " - Book is available!"]

/-- Local line `f"Book #{index} - No results found."`. -/
def noResultsLine (index : Nat) : Msg :=
  [.lit "Book #", .idx index, .lit " - No results found."]

/-- Slack text for the structure-changed classification. -/
def structSlack (book : String) (index : Nat) : Msg :=
  [.lit "#", .idx index, .lit " ", .book book,
   .lit " - Search results unavailable or page structure changed."]

/-- Anonymized local line for the structure-changed classification. -/
def structAnon (index : Nat) : Msg :=
  [.lit "Book #", .idx index, .lit " - Search results unavailable or page structure changed."]

/-- Slack text for the `TimeoutException` handler. -/
def timeoutSlack (book : String) (index : Nat) : Msg :=
  [.lit "#", .idx index, .lit " ", .book book,
   .lit " - Timed out waiting for search results to load."]

/-- Anonymized local line for the `TimeoutException` handler. -/
def timeoutAnon (index : Nat) : Msg :=
  [.lit "Book #", .idx index, .lit " - Timed out waiting for search results to load."]

/-- Slack text for the `StaleElementReferenceException` handler. -/
def staleSlack (book : String) (index : Nat) : Msg :=
  [.lit "#", .idx index, .lit " ", .book book,
   .lit " - Stale element reference exception on input or results."]

/-- Anonymized local line for the `StaleElementReferenceException` handler. -/
def staleAnon (index : Nat) : Msg :=
  [.lit "Book #", .idx index, .lit " - Stale element reference exception on input or results."]

/-- Local line `f"Book #{index} - Unexpected error: {str(e)}"` of the
catch-all handler; no Slack message is sent on this path. -/
def unexpectedLine (index : Nat) : Msg :=
  [.lit "Book #", .idx index, .lit " - Unexpected error: ", .err]

/-! ### Task executor (`check_single_book`) -/

/-- Oracle for one run of `check_single_book`: what each external step does
(`none` = succeeds, `some e` = raises `e`), what each retried operation
attempt does, and what the final DOM queries observe. -/
structure Env where
  createDriver : Option Exc
  navigate : Option Exc
  findSearchBar : Option Exc
  clearAttempts : Nat → AttemptResult
  sendBookAttempts : Nat → AttemptResult
  sendReturnAttempts : Nat → AttemptResult
  waitResults : Option Exc
  productsPresent : Bool
  noResultsPresent : Bool

/-- The first exception raised by the straight-line sequence of steps in the
`try` block (lines 110-131): driver creation, `driver.get`, the clickable
wait for the search bar, the retried clear, the two retried send-keys, and
the results-or-no-results wait. No output happens between these steps. -/
def bodyExc (env : Env) : Option Exc :=
  match env.createDriver with
  | some e => some e
  | none =>
  match env.navigate with
  | some e => some e
  | none =>
  match env.findSearchBar with
  | some e => some e
  | none =>
  match retryExc env.clearAttempts with
  | some e => some e
  | none =>
  match retryExc env.sendBookAttempts with
  | some e => some e
  | none =>
  match retryExc env.sendReturnAttempts with
  | some e => some e
  | none => env.waitResults

/-- Prints, Slack sends, and result (status or escaping exception) of the
`try` block of `check_single_book`, including the classification of
products / no-results / neither (lines 133-152). -/
structure BodyOut where
  prints : List Msg
  slacks : List Msg
  result : Except Exc Status

/-- The `try` block: print the start line, run the steps, then classify. -/
def tryBody (env : Env) (book : String) (index : Nat) : BodyOut :=
  match bodyExc env with
  | some e => ⟨[startMsg book index], [], .error e⟩
  | none =>
    if env.productsPresent then
      ⟨[startMsg book index, availAnon index], [availSlack book index], .ok .available⟩
    else if env.noResultsPresent then
      ⟨[startMsg book index, noResultsLine index], [], .ok .not_found⟩
    else
      ⟨[startMsg book index, structAnon index], [structSlack book index], .ok .error⟩

/-- Everything observable about one `check_single_book` run: the returned
dict, the local prints, the Slack texts handed to `send_slack_message`,
whether the driver was created and whether `driver.quit()` ran in the
`finally` block, and how many `time.sleep(1)` pacing delays ran. -/
structure CheckResult where
  outcome : Outcome
  prints : List Msg
  slacks : List Msg
  driverCreated : Bool
  driverQuit : Bool
  paceSleeps : Nat
deriving DecidableEq

/-- `check_single_book(book, index, ...)`: the `try` block, the three
`except` handlers (lines 154-170), and the `finally` block (lines 171-176).
The result is `Except` so that an exception escaping the function would be
representable; the theorems prove none does. -/
def check_single_book (env : Env) (book : String) (index : Nat) :
    Except Exc CheckResult :=
  match (tryBody env book index).result with
  | .ok st =>
    .ok ⟨⟨index, book, st⟩, (tryBody env book index).prints,
         (tryBody env book index).slacks,
         env.createDriver.isNone, env.createDriver.isNone, 1⟩
  | .error .timeoutExc =>
    .ok ⟨⟨index, book, .timeout⟩, (tryBody env book index).prints ++ [timeoutAnon index],
         (tryBody env book index).slacks ++ [timeoutSlack book index],
         env.createDriver.isNone, env.createDriver.isNone, 1⟩
  | .error .staleExc =>
    .ok ⟨⟨index, book, .stale⟩, (tryBody env book index).prints ++ [staleAnon index],
         (tryBody env book index).slacks ++ [staleSlack book index],
         env.createDriver.isNone, env.createDriver.isNone, 1⟩
  | .error .otherExc =>
    .ok ⟨⟨index, book, .error⟩, (tryBody env book index).prints ++ [unexpectedLine index],
         (tryBody env book index).slacks,
         env.createDriver.isNone, env.createDriver.isNone, 1⟩

/-! ### Notification primitive (`send_slack_message`) -/

/-- What the HTTP request inside `send_slack_message` does: return a
response with some status code, or raise an exception. -/
inductive HttpOutcome
  | resp : Nat → HttpOutcome
  | exc
deriving DecidableEq

/-- Observable result of `send_slack_message`: the local log lines, the
Python return value (the function is annotated `-> None` and has no
`return` statement, so this is always `none` — there is no boolean
delivery indicator), and the exception it lets escape, if any. -/
structure SlackResult where
  prints : List Msg
  retVal : Option Bool
  raised : Option Exc
deriving DecidableEq

/-- Local line `"Slack message sent successfully."`. -/
def slackOkLine : Msg := [.lit "Slack message sent successfully."]

/-- Local line `f"Failed to send Slack message: HTTP {response.status}."`. -/
def slackFailLine (c : Nat) : Msg :=
  [.lit "Failed to send Slack message: HTTP ", .code c, .lit "."]

/-- Local line `f"Error sending message to Slack: {str(e)}."`. -/
def slackExcLine : Msg := [.lit "Error sending message to Slack: ", .err, .lit "."]

/-- `send_slack_message(webhook_url, text)` (lines 79-91): POST the message;
on status 200 log success, on any other status log the code, and catch any
exception from the request, logging it; always return `None`. -/
def send_slack_message (h : HttpOutcome) : SlackResult :=
  match h with
  | .resp c =>
    if c = 200 then ⟨[slackOkLine], none, none⟩
    else ⟨[slackFailLine c], none, none⟩
  | .exc => ⟨[slackExcLine], none, none⟩

/-! ### Argument parsing and task-set construction (`main`, lines 182-192) -/

/-- The whitespace set stripped by Python `str.strip()` (ASCII part):
tab, LF, VT, FF, CR, space. -/
def isPySpace (c : Char) : Bool := c.toNat ∈ [9, 10, 11, 12, 13, 32]

/-- Python `s.strip()` on a character list: drop leading and trailing
whitespace. -/
def pyStrip (l : List Char) : List Char :=
  ((l.dropWhile isPySpace).reverse.dropWhile isPySpace).reverse

/-- Python `s.split(";")` on a character list: split on every semicolon,
keeping empty segments, with `[] ↦ [[]]` (Python `"".split(";") == [""]`). -/
def pySplitSemi : List Char → List (List Char)
  | [] => [[]]
  | c :: rest =>
    let r := pySplitSemi rest
    if c = ';' then [] :: r
    else
      match r with
      | [] => [[c]]
      | g :: gs => (c :: g) :: gs

/-- `book_list = [book.strip() for book in args.book_list.split(";")]`
(line 182). -/
def book_list (s : String) : List String :=
  (pySplitSemi s.data).map fun g => (pyStrip g).asString

/-- `tasks = [(book, i + 1) for i, book in enumerate(book_list)]`
(line 192): each book paired with its 1-based position, in input order. -/
def tasks (s : String) : List (String × Nat) :=
  (book_list s).enum.map fun p => (p.2, p.1 + 1)

/-- The default of the `--max-workers` argument (line 44). -/
def maxWorkersDefault : Nat := 2

/-! ### Worker pool collection and final report (`main`, lines 195-217) -/

/-- The outcome dict that `future.result()` yields for one submitted task;
the `.error` arm is the (provably unreachable) case of `check_single_book`
letting an exception escape, which `main` would not convert. -/
def taskOutcome (envs : Nat → Env) (t : String × Nat) : Outcome :=
  match check_single_book (envs t.2) t.1 t.2 with
  | .ok r => r.outcome
  | .error _ => ⟨t.2, t.1, .error⟩

/-- The multiset of outcomes a run over input `s` produces, listed in
submission order; `as_completed` delivers some permutation of it. -/
def canonicalOutcomes (envs : Nat → Env) (s : String) : List Outcome :=
  (tasks s).map (taskOutcome envs)

/-- Comparison used by `results.sort(key=lambda x: x["index"])`. -/
def leIdx (a b : Outcome) : Prop := a.index ≤ b.index

instance : DecidableRel leIdx := fun a b => Nat.decLe a.index b.index

instance : IsTotal Outcome leIdx := ⟨fun a b => Nat.le_total a.index b.index⟩

instance : IsTrans Outcome leIdx := ⟨fun _ _ _ => Nat.le_trans⟩

/-- Strict index comparison, used to identify the sorted report uniquely. -/
def ltIdx (a b : Outcome) : Prop := a.index < b.index

instance : IsAntisymm Outcome ltIdx := ⟨fun _ _ h1 h2 => absurd h2 (Nat.lt_asymm h1)⟩

/-- `results.sort(key=lambda x: x["index"])` (line 212), as a stable
comparison sort on the index key. -/
def sortReport (l : List Outcome) : List Outcome := l.insertionSort leIdx

/-- Line `f"Checking {len(book_list)} books with {max_workers} concurrent browsers..."`. -/
def checkingLine (k w : Nat) : Msg :=
  [.lit "Checking ", .count k, .lit " books with ", .workers w,
   .lit " concurrent browsers..."]

/-- Line `f"Book #{result[index]} - Completed: {result[status]}"` (line 209),
printed as each future completes; it does not interpolate the book. -/
def completedLine (o : Outcome) : Msg :=
  [.lit "Book #", .idx o.index, .lit " - Completed: ", .stat o.status]

/-- Line `"All searches completed!"` (line 213). -/
def allDoneLine : Msg := [.lit "All searches completed!"]

/-- Final report line `f"Book #{result[index]} {result[book]}: {result[status]}"`
(lines 215-217); note it interpolates the book identity. -/
def reportLine (o : Outcome) : Msg :=
  [.lit "Book #", .idx o.index, .lit " ", .book o.book, .lit ": ", .stat o.status]

/-- Everything `main` produces after the pool finishes, given the list of
outcomes in the order `as_completed` delivered them: the sorted report and
the local log lines of `main` itself. -/
structure MainResult where
  report : List Outcome
  prints : List Msg
deriving DecidableEq

/-- The aggregation and reporting tail of `main` (lines 187-217),
parameterized by the completion order `completed` of the pool. -/
def mainAggregate (s : String) (w : Nat) (completed : List Outcome) : MainResult :=
  { report := sortReport completed
    prints := checkingLine (book_list s).length w :: completed.map completedLine
      ++ [allDoneLine] ++ (sortReport completed).map reportLine }

/-- A run in which every external step succeeds and the results container
is present on the page. -/
def allOkEnv : Env :=
  { createDriver := none, navigate := none, findSearchBar := none,
    clearAttempts := fun _ => .success, sendBookAttempts := fun _ => .success,
    sendReturnAttempts := fun _ => .success, waitResults := none,
    productsPresent := true, noResultsPresent := false }

/-- A run in which driver creation raises an unanticipated (neither timeout
nor stale) exception, e.g. the chromedriver binary is missing. -/
def crashEnv : Env :=
  { createDriver := some .otherExc, navigate := none, findSearchBar := none,
    clearAttempts := fun _ => .success, sendBookAttempts := fun _ => .success,
    sendReturnAttempts := fun _ => .success, waitResults := none,
    productsPresent := false, noResultsPresent := false }

/-! ### Lemmas about the retry loop -/

theorem retryAux_calls_le (op : Nat → AttemptResult) (k i : Nat) :
    (retryAux op k i).calls ≤ k := by
  induction k generalizing i with
  | zero => simp [retryAux]
  | succ k ih =>
    simp only [retryAux]
    cases op i with
    | success => simp
    | staleFail =>
      by_cases hk : k = 0
      · simp [hk]
      · simpa [hk] using Nat.succ_le_succ (ih (i + 1))
    | otherFail => simp

theorem retryAux_calls_pos (op : Nat → AttemptResult) (k i : Nat) (hk : 0 < k) :
    1 ≤ (retryAux op k i).calls := by
  cases k with
  | zero => omega
  | succ k =>
    simp only [retryAux]
    cases op i with
    | success => simp
    | staleFail =>
      by_cases h0 : k = 0
      · simp [h0]
      · simp [h0]
    | otherFail => simp

theorem retryAux_backoffs (op : Nat → AttemptResult) (k i : Nat) (hk : 0 < k) :
    (retryAux op k i).backoffs + 1 = (retryAux op k i).calls := by
  induction k generalizing i with
  | zero => omega
  | succ k ih =>
    simp only [retryAux]
    cases op i with
    | success => simp
    | staleFail =>
      by_cases h0 : k = 0
      · simp [h0]
      · have := ih (i + 1) (Nat.pos_of_ne_zero h0)
        simp only [h0, if_false]
        omega
    | otherFail => simp

theorem retryAux_raiseStale_iff (op : Nat → AttemptResult) (k i : Nat) :
    (retryAux op k i).outcome = RetryOutcome.raiseStale ↔
      0 < k ∧ ∀ j, i ≤ j → j < i + k → op j = AttemptResult.staleFail := by
  induction k generalizing i with
  | zero => simp [retryAux]
  | succ k ih =>
    simp only [retryAux]
    cases h : op i with
    | success =>
      simp only [RetryResult.mk.injEq]
      constructor
      · intro hc
        exact absurd hc (by simp)
      · rintro ⟨-, hall⟩
        have := hall i (Nat.le_refl i) (by omega)
        rw [h] at this
        cases this
    | staleFail =>
      by_cases h0 : k = 0
      · subst h0
        constructor
        · intro _
          refine ⟨Nat.one_pos, fun j hij hjk => ?_⟩
          have hji : j = i := by omega
          rwa [hji]
        · intro _
          simp
      · simp only [h0, if_false]
        rw [ih (i + 1)]
        constructor
        · rintro ⟨hk, hall⟩
          refine ⟨Nat.succ_pos k, fun j hij hjk => ?_⟩
          rcases Nat.eq_or_lt_of_le hij with hj | hj
          · rwa [← hj]
          · exact hall j (by omega) (by omega)
        · rintro ⟨-, hall⟩
          exact ⟨Nat.pos_of_ne_zero h0, fun j hij hjk => hall j (by omega) (by omega)⟩
    | otherFail =>
      constructor
      · intro hc
        exact absurd hc (by simp)
      · rintro ⟨-, hall⟩
        have := hall i (Nat.le_refl i) (by omega)
        rw [h] at this
        cases this

/-! ### Claim C3 -/

/-- C3 (amended to retries at least 1): for every `N ≥ 1`, both retry
wrappers invoke the wrapped operation at most `N` times and at least once,
sleep exactly one fixed 0.5-unit backoff between consecutive attempts
(backoffs = calls - 1), and re-raise the stale-element failure iff every
one of the `N` attempts fails with that kind — in particular a stale
failure on the final attempt propagates. -/
theorem c3_retry_contract (op op2 : Nat → AttemptResult) (N : Nat) (hN : 1 ≤ N) :
    ((safe_send_keys op N).calls ≤ N ∧ 1 ≤ (safe_send_keys op N).calls ∧
      (safe_send_keys op N).backoffs + 1 = (safe_send_keys op N).calls ∧
      ((safe_send_keys op N).outcome = RetryOutcome.raiseStale ↔
        ∀ j, j < N → op j = AttemptResult.staleFail)) ∧
    ((safe_clear_element op2 N).calls ≤ N ∧ 1 ≤ (safe_clear_element op2 N).calls ∧
      (safe_clear_element op2 N).backoffs + 1 = (safe_clear_element op2 N).calls ∧
      ((safe_clear_element op2 N).outcome = RetryOutcome.raiseStale ↔
        ∀ j, j < N → op2 j = AttemptResult.staleFail)) := by
  have hiff : ∀ (f : Nat → AttemptResult),
      ((retryAux f N 0).outcome = RetryOutcome.raiseStale ↔
        ∀ j, j < N → f j = AttemptResult.staleFail) := by
    intro f
    rw [retryAux_raiseStale_iff]
    constructor
    · rintro ⟨-, hall⟩ j hj
      exact hall j (Nat.zero_le j) (by omega)
    · intro hall
      exact ⟨hN, fun j _ hj => hall j (by omega)⟩
  exact ⟨⟨retryAux_calls_le op N 0, retryAux_calls_pos op N 0 hN,
          retryAux_backoffs op N 0 hN, hiff op⟩,
         ⟨retryAux_calls_le op2 N 0, retryAux_calls_pos op2 N 0 hN,
          retryAux_backoffs op2 N 0 hN, hiff op2⟩⟩

/-- Witness for C3: the contract applied at `N = 3` with an operation that
always fails stale, showing the stale failure is re-raised after exactly
three attempts. -/
theorem c3_retry_contract_witness :
    (safe_send_keys (fun _ => AttemptResult.staleFail) 3).outcome =
      RetryOutcome.raiseStale :=
  ((c3_retry_contract (fun _ => AttemptResult.staleFail)
      (fun _ => AttemptResult.success) 3 (by decide)).1.2.2.2).mpr (fun _ _ => rfl)

/-- C3 counterexample: with `retries = 0` the `for` loop body never runs,
so the wrapped operation is invoked zero times, refuting the claimed
lower bound of at least one invocation for every `N`. -/
theorem c3_counterexample :
    ¬ (1 ≤ (safe_send_keys (fun _ => AttemptResult.success) 0).calls ∧
       1 ≤ (safe_clear_element (fun _ => AttemptResult.success) 0).calls) := by
  decide

/-! ### Equation lemmas for the task executor -/

theorem check_eq_body (env : Env) (b : String) (i : Nat) (pr sl : List Msg)
    (st : Status) (h : tryBody env b i = ⟨pr, sl, .ok st⟩) :
    check_single_book env b i =
      .ok ⟨⟨i, b, st⟩, pr, sl, env.createDriver.isNone, env.createDriver.isNone, 1⟩ := by
  unfold check_single_book
  rw [h]

theorem check_eq_timeout (env : Env) (b : String) (i : Nat) (pr sl : List Msg)
    (h : tryBody env b i = ⟨pr, sl, .error .timeoutExc⟩) :
    check_single_book env b i =
      .ok ⟨⟨i, b, .timeout⟩, pr ++ [timeoutAnon i], sl ++ [timeoutSlack b i],
           env.createDriver.isNone, env.createDriver.isNone, 1⟩ := by
  unfold check_single_book
  rw [h]

theorem check_eq_stale (env : Env) (b : String) (i : Nat) (pr sl : List Msg)
    (h : tryBody env b i = ⟨pr, sl, .error .staleExc⟩) :
    check_single_book env b i =
      .ok ⟨⟨i, b, .stale⟩, pr ++ [staleAnon i], sl ++ [staleSlack b i],
           env.createDriver.isNone, env.createDriver.isNone, 1⟩ := by
  unfold check_single_book
  rw [h]

theorem check_eq_other (env : Env) (b : String) (i : Nat) (pr sl : List Msg)
    (h : tryBody env b i = ⟨pr, sl, .error .otherExc⟩) :
    check_single_book env b i =
      .ok ⟨⟨i, b, .error⟩, pr ++ [unexpectedLine i], sl,
           env.createDriver.isNone, env.createDriver.isNone, 1⟩ := by
  unfold check_single_book
  rw [h]

/-- Every run of the task executor returns exactly one outcome carrying the
submitted index and book, creates and quits the driver in lockstep, and
performs the single pacing sleep. -/
theorem check_spec (env : Env) (b : String) (i : Nat) :
    ∃ r, check_single_book env b i = .ok r ∧
      r.outcome.index = i ∧ r.outcome.book = b ∧
      r.driverCreated = env.createDriver.isNone ∧
      r.driverQuit = r.driverCreated ∧ r.paceSleeps = 1 := by
  rcases hb : tryBody env b i with ⟨pr, sl, res⟩
  rcases res with e | st
  · rcases e with _ | _ | _
    · exact ⟨_, check_eq_timeout env b i pr sl hb, rfl, rfl, rfl, rfl, rfl⟩
    · exact ⟨_, check_eq_stale env b i pr sl hb, rfl, rfl, rfl, rfl, rfl⟩
    · exact ⟨_, check_eq_other env b i pr sl hb, rfl, rfl, rfl, rfl, rfl⟩
  · exact ⟨_, check_eq_body env b i pr sl st hb, rfl, rfl, rfl, rfl, rfl⟩

/-! ### Claim C2 -/

/-- C2: for every environment the task executor returns exactly one outcome
(it never lets an exception escape its boundary), the outcome carries the
submitted index and book, and when an unanticipated exception escapes the
`try` body it is converted into an outcome with status `error`, so no item
is dropped and no sibling task is aborted. -/
theorem c2_executor_total (env : Env) (b : String) (i : Nat) :
    ∃ r, check_single_book env b i = .ok r ∧
      r.outcome.index = i ∧ r.outcome.book = b ∧
      ((tryBody env b i).result = .error .otherExc →
        r.outcome.status = Status.error) := by
  rcases hb : tryBody env b i with ⟨pr, sl, res⟩
  rcases res with e | st
  · rcases e with _ | _ | _
    · refine ⟨_, check_eq_timeout env b i pr sl hb, rfl, rfl, fun hc => ?_⟩
      simp at hc
    · refine ⟨_, check_eq_stale env b i pr sl hb, rfl, rfl, fun hc => ?_⟩
      simp at hc
    · exact ⟨_, check_eq_other env b i pr sl hb, rfl, rfl, fun _ => rfl⟩
  · refine ⟨_, check_eq_body env b i pr sl st hb, rfl, rfl, fun hc => ?_⟩
    simp at hc

/-- Witness for C2: in the crashing run the executor still returns a normal
outcome with status `error` for its item. -/
theorem c2_executor_total_witness :
    ∃ r, check_single_book crashEnv "Y" 6 = .ok r ∧
      r.outcome.index = 6 ∧ r.outcome.book = "Y" ∧
      r.outcome.status = Status.error := by
  obtain ⟨r, hok, hi, hbk, himp⟩ := c2_executor_total crashEnv "Y" 6
  exact ⟨r, hok, hi, hbk, himp rfl⟩

/-! ### Claim C5 -/

/-- C5: on every exit path of the task executor the driver session is quit
iff it was created (never quit when creation failed), the created flag is
exactly success of driver creation, and the fixed one-unit pacing sleep runs
exactly once before returning, regardless of outcome. -/
theorem c5_cleanup_pacing (env : Env) (b : String) (i : Nat) :
    ∃ r, check_single_book env b i = .ok r ∧
      r.driverQuit = r.driverCreated ∧
      r.driverCreated = env.createDriver.isNone ∧
      r.paceSleeps = 1 := by
  obtain ⟨r, hok, -, -, hcr, hq, hp⟩ := check_spec env b i
  exact ⟨r, hok, hq, hcr, hp⟩

/-! ### Claim C4 -/

/-- C4: when every step up to and including the bounded result wait
succeeds, the executor classifies exactly: results present gives status
`available` with the success notification handed to the sink; otherwise a
no-results signal gives `not_found` with no notification; otherwise it
gives `error` with the structure-changed diagnostic notification. -/
theorem c4_classification (env : Env) (b : String) (i : Nat)
    (h : bodyExc env = none) :
    ∃ r, check_single_book env b i = .ok r ∧
      (env.productsPresent = true →
        r.outcome.status = Status.available ∧ r.slacks = [availSlack b i]) ∧
      (env.productsPresent = false → env.noResultsPresent = true →
        r.outcome.status = Status.not_found ∧ r.slacks = []) ∧
      (env.productsPresent = false → env.noResultsPresent = false →
        r.outcome.status = Status.error ∧ r.slacks = [structSlack b i]) := by
  cases hp : env.productsPresent with
  | true =>
    have hb : tryBody env b i =
        ⟨[startMsg b i, availAnon i], [availSlack b i], .ok .available⟩ := by
      simp [tryBody, h, hp]
    exact ⟨_, check_eq_body env b i _ _ _ hb, fun _ => ⟨rfl, rfl⟩,
      fun hc => absurd hc (by simp [hp]), fun hc => absurd hc (by simp [hp])⟩
  | false =>
    cases hn : env.noResultsPresent with
    | true =>
      have hb : tryBody env b i =
          ⟨[startMsg b i, noResultsLine i], [], .ok .not_found⟩ := by
        simp [tryBody, h, hp, hn]
      exact ⟨_, check_eq_body env b i _ _ _ hb, fun hc => absurd hc (by simp [hp]),
        fun _ _ => ⟨rfl, rfl⟩, fun _ hc => absurd hc (by simp [hn])⟩
    | false =>
      have hb : tryBody env b i =
          ⟨[startMsg b i, structAnon i], [structSlack b i], .ok .error⟩ := by
        simp [tryBody, h, hp, hn]
      exact ⟨_, check_eq_body env b i _ _ _ hb, fun hc => absurd hc (by simp [hp]),
        fun _ hc => absurd hc (by simp [hn]), fun _ _ => ⟨rfl, rfl⟩⟩

/-- Witness for C4: in the all-success run with products present, the
hypothesis holds by computation and the status is `available`. -/
theorem c4_classification_witness :
    ∃ r, check_single_book allOkEnv "Moby Dick" 4 = .ok r ∧
      r.outcome.status = Status.available ∧
      r.slacks = [availSlack "Moby Dick" 4] := by
  obtain ⟨r, hok, h1, -, -⟩ := c4_classification allOkEnv "Moby Dick" 4 rfl
  exact ⟨r, hok, (h1 rfl).1, (h1 rfl).2⟩

/-! ### Claim C6 -/

/-- C6 counterexample: when driver creation raises an unanticipated
exception, the outcome has status `error` yet no notification at all is
handed to the sink, refuting the claim that every timeout, stale, or error
outcome sends one. -/
theorem c6_counterexample :
    ∃ r, check_single_book crashEnv "Y" 6 = .ok r ∧
      r.outcome.status = Status.error ∧ r.slacks = [] :=
  ⟨_, rfl, rfl, rfl⟩

/-- C6 (amended): timeout and stale outcomes, and error outcomes arising
from the structure-changed classification, each hand the sink exactly one
diagnostic message carrying the item position; error outcomes arising from
an unanticipated exception hand the sink nothing (local log only). -/
theorem c6_failure_notifications (env : Env) (b : String) (i : Nat) :
    ∃ r, check_single_book env b i = .ok r ∧
      (r.outcome.status = Status.timeout → r.slacks = [timeoutSlack b i]) ∧
      (r.outcome.status = Status.stale → r.slacks = [staleSlack b i]) ∧
      ((tryBody env b i).result = .ok Status.error →
        r.slacks = [structSlack b i]) ∧
      ((tryBody env b i).result = .error .otherExc → r.slacks = []) := by
  rcases hb : bodyExc env with _ | e
  · cases hp : env.productsPresent with
    | true =>
      have hbt : tryBody env b i =
          ⟨[startMsg b i, availAnon i], [availSlack b i], .ok .available⟩ := by
        simp [tryBody, hb, hp]
      refine ⟨_, check_eq_body env b i _ _ _ hbt, ?_, ?_, ?_, ?_⟩ <;>
        · intro hc
          simp [hbt] at hc
    | false =>
      cases hn : env.noResultsPresent with
      | true =>
        have hbt : tryBody env b i =
            ⟨[startMsg b i, noResultsLine i], [], .ok .not_found⟩ := by
          simp [tryBody, hb, hp, hn]
        refine ⟨_, check_eq_body env b i _ _ _ hbt, ?_, ?_, ?_, ?_⟩ <;>
          · intro hc
            simp [hbt] at hc
      | false =>
        have hbt : tryBody env b i =
            ⟨[startMsg b i, structAnon i], [structSlack b i], .ok .error⟩ := by
          simp [tryBody, hb, hp, hn]
        refine ⟨_, check_eq_body env b i _ _ _ hbt, ?_, ?_, fun _ => rfl, ?_⟩ <;>
          · intro hc
            simp [hbt] at hc
  · have hbt : tryBody env b i = ⟨[startMsg b i], [], .error e⟩ := by
      simp [tryBody, hb]
    rcases e with _ | _ | _
    · refine ⟨_, check_eq_timeout env b i _ _ hbt, fun _ => rfl, ?_, ?_, ?_⟩ <;>
        · intro hc
          simp [hbt] at hc
    · refine ⟨_, check_eq_stale env b i _ _ hbt, ?_, fun _ => rfl, ?_, ?_⟩ <;>
        · intro hc
          simp [hbt] at hc
    · refine ⟨_, check_eq_other env b i _ _ hbt, ?_, ?_, ?_, fun _ => rfl⟩ <;>
        · intro hc
          simp [hbt] at hc

/-- Witness for C6 (amended): in a run whose bounded result wait times out,
exactly the timeout diagnostic is handed to the sink. -/
theorem c6_failure_notifications_witness :
    ∃ r, check_single_book
        { allOkEnv with waitResults := some .timeoutExc } "Moby Dick" 4 = .ok r ∧
      r.slacks = [timeoutSlack "Moby Dick" 4] := by
  obtain ⟨r, hok, h1, -, -, -⟩ :=
    c6_failure_notifications { allOkEnv with waitResults := some .timeoutExc } "Moby Dick" 4
  refine ⟨r, hok, h1 ?_⟩
  have : check_single_book
      { allOkEnv with waitResults := some .timeoutExc } "Moby Dick" 4 =
      .ok ⟨⟨4, "Moby Dick", .timeout⟩, [startMsg "Moby Dick" 4, timeoutAnon 4],
           [timeoutSlack "Moby Dick" 4], true, true, 1⟩ := rfl
  rw [this] at hok
  injection hok with he
  rw [← he]

/-! ### Claim C7 -/

/-- C7 counterexample: the starting log line printed locally by the task
executor interpolates the book identity string, refuting the claim that no
local log line ever contains it. -/
theorem c7_counterexample :
    ∃ r, check_single_book allOkEnv "Moby Dick" 4 = .ok r ∧
      ∃ m, m ∈ r.prints ∧ hasBookTok m = true := by
  refine ⟨_, rfl, startMsg "Moby Dick" 4, ?_, rfl⟩
  decide

/-- C7 (amended): in every run the executor prints the start line first and
it carries the identity string; every further local line of the executor is
the anonymized form without the identity string; every message handed to
the sink carries the identity string; and in the aggregator the per-item
final report lines carry the identity string while the per-completion and
header lines do not. -/
theorem c7_log_anonymization (env : Env) (b : String) (i : Nat) :
    ∃ r, check_single_book env b i = .ok r ∧
      r.prints.head? = some (startMsg b i) ∧
      hasBookTok (startMsg b i) = true ∧
      (∀ m ∈ r.prints.tail, hasBookTok m = false) ∧
      (∀ m ∈ r.slacks, hasBookTok m = true) ∧
      (∀ o : Outcome, hasBookTok (reportLine o) = true) ∧
      (∀ o : Outcome, hasBookTok (completedLine o) = false) ∧
      (∀ k w : Nat, hasBookTok (checkingLine k w) = false) := by
  rcases hb : bodyExc env with _ | e
  · cases hp : env.productsPresent with
    | true =>
      have hbt : tryBody env b i =
          ⟨[startMsg b i, availAnon i], [availSlack b i], .ok .available⟩ := by
        simp [tryBody, hb, hp]
      refine ⟨_, check_eq_body env b i _ _ _ hbt, rfl, rfl, ?_, ?_, fun o => rfl,
        fun o => rfl, fun k w => rfl⟩
      · intro m hm
        simp at hm
        rw [hm]
        rfl
      · intro m hm
        simp at hm
        rw [hm]
        rfl
    | false =>
      cases hn : env.noResultsPresent with
      | true =>
        have hbt : tryBody env b i =
            ⟨[startMsg b i, noResultsLine i], [], .ok .not_found⟩ := by
          simp [tryBody, hb, hp, hn]
        refine ⟨_, check_eq_body env b i _ _ _ hbt, rfl, rfl, ?_, ?_, fun o => rfl,
          fun o => rfl, fun k w => rfl⟩
        · intro m hm
          simp at hm
          rw [hm]
          rfl
        · intro m hm
          simp at hm
      | false =>
        have hbt : tryBody env b i =
            ⟨[startMsg b i, structAnon i], [structSlack b i], .ok .error⟩ := by
          simp [tryBody, hb, hp, hn]
        refine ⟨_, check_eq_body env b i _ _ _ hbt, rfl, rfl, ?_, ?_, fun o => rfl,
          fun o => rfl, fun k w => rfl⟩
        · intro m hm
          simp at hm
          rw [hm]
          rfl
        · intro m hm
          simp at hm
          rw [hm]
          rfl
  · have hbt : tryBody env b i = ⟨[startMsg b i], [], .error e⟩ := by
      simp [tryBody, hb]
    rcases e with _ | _ | _
    · refine ⟨_, check_eq_timeout env b i _ _ hbt, rfl, rfl, ?_, ?_, fun o => rfl,
        fun o => rfl, fun k w => rfl⟩
      · intro m hm
        simp at hm
        rw [hm]
        rfl
      · intro m hm
        simp at hm
        rw [hm]
        rfl
    · refine ⟨_, check_eq_stale env b i _ _ hbt, rfl, rfl, ?_, ?_, fun o => rfl,
        fun o => rfl, fun k w => rfl⟩
      · intro m hm
        simp at hm
        rw [hm]
        rfl
      · intro m hm
        simp at hm
        rw [hm]
        rfl
    · refine ⟨_, check_eq_other env b i _ _ hbt, rfl, rfl, ?_, ?_, fun o => rfl,
        fun o => rfl, fun k w => rfl⟩
      · intro m hm
        simp at hm
        rw [hm]
        rfl
      · intro m hm
        simp at hm

/-- Witness for C7 (amended): concrete instantiation on the all-success
run. -/
theorem c7_log_anonymization_witness :
    ∃ r, check_single_book allOkEnv "Moby Dick" 4 = .ok r ∧
      (∀ m ∈ r.prints.tail, hasBookTok m = false) := by
  obtain ⟨r, hok, -, -, h4, -, -, -, -⟩ :=
    c7_log_anonymization allOkEnv "Moby Dick" 4
  exact ⟨r, hok, h4⟩

/-! ### Claim C9 -/

/-- C9 counterexample: even on a successful HTTP 200 delivery
`send_slack_message` returns `None` — there is no boolean delivery
indicator for the caller. -/
theorem c9_counterexample :
    (send_slack_message (HttpOutcome.resp 200)).retVal = none ∧
    ¬ (send_slack_message (HttpOutcome.resp 200)).retVal = some true := by
  decide

/-- C9 (amended): `send_slack_message` returns `None` rather than a boolean
indicator; for every HTTP outcome it lets no exception escape to the
caller, and it reports delivery only through local log lines: the success
line on status 200, the status-code line on any other status, and the
error line when the request raises. -/
theorem c9_slack_never_escalates (h : HttpOutcome) :
    (send_slack_message h).raised = none ∧
    (send_slack_message h).retVal = none ∧
    (h = HttpOutcome.resp 200 → (send_slack_message h).prints = [slackOkLine]) ∧
    (∀ c, c ≠ 200 → h = HttpOutcome.resp c →
      (send_slack_message h).prints = [slackFailLine c]) ∧
    (h = HttpOutcome.exc → (send_slack_message h).prints = [slackExcLine]) := by
  cases h with
  | resp c =>
    by_cases hc : c = 200
    · subst hc
      refine ⟨rfl, rfl, fun _ => rfl, fun c' hc' he => ?_, fun he => by simp at he⟩
      injection he with he'
      exact absurd he'.symm hc'
    · refine ⟨?_, ?_, fun he => ?_, fun c' hc' he => ?_, fun he => by simp at he⟩
      · simp [send_slack_message, hc]
      · simp [send_slack_message, hc]
      · injection he with he'
        exact absurd he' hc
      · injection he with he'
        subst he'
        simp [send_slack_message, hc]
  | exc =>
    exact ⟨rfl, rfl, fun he => by simp at he, fun c' hc' he => by simp at he,
      fun _ => rfl⟩

/-- Witness for C9 (amended): concrete instantiation at a raised request
exception, which is logged and not escalated. -/
theorem c9_slack_never_escalates_witness :
    (send_slack_message HttpOutcome.exc).raised = none ∧
    (send_slack_message HttpOutcome.exc).prints = [slackExcLine] :=
  ⟨(c9_slack_never_escalates HttpOutcome.exc).1,
   (c9_slack_never_escalates HttpOutcome.exc).2.2.2.2 rfl⟩

/-! ### Lemmas about the task set and the report -/

theorem taskOutcome_index (envs : Nat → Env) (t : String × Nat) :
    (taskOutcome envs t).index = t.2 := by
  obtain ⟨r, hr, hi, -, -, -, -⟩ := check_spec (envs t.2) t.1 t.2
  unfold taskOutcome
  rw [hr]
  exact hi

theorem taskOutcome_book (envs : Nat → Env) (t : String × Nat) :
    (taskOutcome envs t).book = t.1 := by
  obtain ⟨r, hr, -, hbk, -, -, -⟩ := check_spec (envs t.2) t.1 t.2
  unfold taskOutcome
  rw [hr]
  exact hbk

theorem tasks_map_fst (s : String) : (tasks s).map Prod.fst = book_list s := by
  unfold tasks
  rw [List.map_map]
  have h : (Prod.fst ∘ fun p : Nat × String => (p.2, p.1 + 1)) = Prod.snd := rfl
  rw [h, List.enum_map_snd]

theorem tasks_map_snd (s : String) :
    (tasks s).map Prod.snd = List.range' 1 (book_list s).length := by
  unfold tasks
  rw [List.map_map]
  have h1 : (Prod.snd ∘ fun p : Nat × String => (p.2, p.1 + 1)) =
      (fun n => n + 1) ∘ Prod.fst := rfl
  rw [h1, ← List.map_map, List.enum_map_fst, List.range'_eq_map_range]
  exact List.map_congr_left fun a _ => Nat.add_comm a 1

theorem canonical_map_index (envs : Nat → Env) (s : String) :
    (canonicalOutcomes envs s).map Outcome.index =
      List.range' 1 (book_list s).length := by
  unfold canonicalOutcomes
  rw [List.map_map]
  have h : (Outcome.index ∘ taskOutcome envs) = Prod.snd :=
    funext fun t => taskOutcome_index envs t
  rw [h, tasks_map_snd]

theorem canonical_map_book (envs : Nat → Env) (s : String) :
    (canonicalOutcomes envs s).map Outcome.book = book_list s := by
  unfold canonicalOutcomes
  rw [List.map_map]
  have h : (Outcome.book ∘ taskOutcome envs) = Prod.fst :=
    funext fun t => taskOutcome_book envs t
  rw [h, tasks_map_fst]

theorem canonical_sorted_lt (envs : Nat → Env) (s : String) :
    List.Sorted ltIdx (canonicalOutcomes envs s) := by
  have h := List.pairwise_lt_range' 1 (book_list s).length
  rw [← canonical_map_index envs s, List.pairwise_map] at h
  exact h

theorem canonical_index_nodup (envs : Nat → Env) (s : String) :
    ((canonicalOutcomes envs s).map Outcome.index).Nodup := by
  rw [canonical_map_index]
  exact List.nodup_range' 1 _

/-- Sorting any completion-order permutation of the run's outcomes by index
recovers exactly the submission-order sequence. -/
theorem sort_eq_canonical (envs : Nat → Env) (s : String)
    (completed : List Outcome)
    (h : completed.Perm (canonicalOutcomes envs s)) :
    sortReport completed = canonicalOutcomes envs s := by
  have hperm : (sortReport completed).Perm (canonicalOutcomes envs s) :=
    (List.perm_insertionSort leIdx completed).trans h
  have hsle : List.Sorted leIdx (sortReport completed) :=
    List.sorted_insertionSort leIdx completed
  have hnd : List.Pairwise Ne ((sortReport completed).map Outcome.index) :=
    (hperm.map Outcome.index).nodup_iff.mpr (canonical_index_nodup envs s)
  rw [List.pairwise_map] at hnd
  have hslt : List.Sorted ltIdx (sortReport completed) := by
    have hand := List.Pairwise.and hsle hnd
    exact hand.imp fun hab => Nat.lt_of_le_of_ne hab.1 hab.2
  exact List.eq_of_perm_of_sorted hperm hslt (canonical_sorted_lt envs s)

/-! ### Claim C1 -/

/-- C1: for every input string and every completion order of the pool (any
permutation of the run's outcomes), the final report equals the
submission-order outcome sequence: it has exactly one entry per submitted
item, its positions are exactly 1..K ascending, each exactly once, and its
books match the original input order. -/
theorem c1_report_order (s : String) (envs : Nat → Env)
    (completed : List Outcome)
    (h : completed.Perm (canonicalOutcomes envs s)) :
    sortReport completed = canonicalOutcomes envs s ∧
    (sortReport completed).length = (book_list s).length ∧
    (sortReport completed).map Outcome.index =
      List.range' 1 (book_list s).length ∧
    (sortReport completed).map Outcome.book = book_list s := by
  have he := sort_eq_canonical envs s completed h
  refine ⟨he, ?_, ?_, ?_⟩
  · rw [he]
    have := congrArg List.length (canonical_map_book envs s)
    simpa using this
  · rw [he]
    exact canonical_map_index envs s
  · rw [he]
    exact canonical_map_book envs s

/-- Witness for C1: a two-item run whose outcomes complete out of order
still yields the report in input order with positions 1, 2. -/
theorem c1_report_order_witness :
    (sortReport [⟨2, "b", Status.available⟩, ⟨1, "a", Status.available⟩]).map
      Outcome.index = List.range' 1 (book_list "a;b").length :=
  (c1_report_order "a;b" (fun _ => allOkEnv)
    [⟨2, "b", Status.available⟩, ⟨1, "a", Status.available⟩] (by decide)).2.2.1

/-! ### Claim C10 -/

/-- C10: the task set is formed by splitting the raw input on semicolons
and stripping whitespace from each segment, assigning positions 1..K in
input order; empty segments — from an empty input or a trailing semicolon —
become items with an empty identity string that are still dispatched to the
executor and appear in the report. -/
theorem c10_task_set (s : String) (envs : Nat → Env) :
    (tasks s).map Prod.fst = book_list s ∧
    (tasks s).map Prod.snd = List.range' 1 (book_list s).length ∧
    (canonicalOutcomes envs s).map Outcome.book = book_list s ∧
    (sortReport (canonicalOutcomes envs s)).map Outcome.book = book_list s ∧
    book_list "" = [""] ∧
    book_list " a ; b;" = ["a", "b", ""] ∧
    tasks " a ; b;" = [("a", 1), ("b", 2), ("", 3)] := by
  refine ⟨tasks_map_fst s, tasks_map_snd s, canonical_map_book envs s, ?_,
    by decide, by decide, by decide⟩
  rw [sort_eq_canonical envs s _ (List.Perm.refl _), canonical_map_book]

end BookSearch
